import Mathlib

/- Shallow embedding of the wikimcp MCP server (repository cer12u/wikimcp).

The repository carries four revisions of the same single-file server:

* revision 0 - the earliest revision (file src/unnamed/part_000);
* revisions A, B, C - the three revisions concatenated, in that order,
  inside src/src/index.ts (A starts at line 1, B at line 764, C at line 1406).

The embedding models the argument bags the MCP host hands over as untyped
JavaScript values (JsValue), the GraphQL transport as an oracle record (Env)
mapping each issued request to either a response shape or a thrown error, and
each handler as a total Lean function from the oracle and the argument bag to
the ToolCallResult the host receives.  Where a handler issues several network
calls, the model also returns the trace of issued calls so that call-count
properties can be stated.  Debug-log text (the debugLog helper of revisions
A-C) is appended to result texts in the source but never influences control
flow, error flags, or the message prefixes the claims talk about; the model
elides it.  JavaScript string operations are mapped to Lean String operations
over the underlying character list (startsWith of a one-character prefix
becomes a head test on String.data, substring(1) becomes dropping the head,
includes becomes character-list infix). -/

namespace Wikimcp

/-- Untyped JavaScript value, as far as the handlers inspect arguments and
responses: numbers, strings, booleans and null.  A missing (undefined)
property is represented by Option.none at the use site. -/
inductive JsValue : Type
  | num (n : Int)
  | str (s : String)
  | bool (b : Bool)
  | null
deriving DecidableEq, Repr

/-- JavaScript truthiness for the values the handlers test: 0, the empty
string, false and null are falsy, everything else is truthy. -/
def jsTruthy : JsValue → Bool
  | .num n => n != 0
  | .str s => s != ""
  | .bool b => b
  | .null => false

/-- Truthiness of an optional property: an absent (undefined) property is
falsy. -/
def jsTruthyOpt : Option JsValue → Bool
  | some v => jsTruthy v
  | none => false

/-- Evaluate an optional property the way a JavaScript if-condition does:
return the value when it is present and truthy, none otherwise. -/
def argTruthy : Option JsValue → Option JsValue
  | some v => if jsTruthy v then some v else none
  | none => none

/-- JavaScript or-with-default (the pattern args.x || dflt): the value when
present and truthy, the default otherwise. -/
def jsOr (v : Option JsValue) (dflt : JsValue) : JsValue :=
  match v with
  | some w => if jsTruthy w then w else dflt
  | none => dflt

/-- String rendering of a value in a template literal. -/
def jsToString : JsValue → String
  | .num n => toString n
  | .str s => s
  | .bool b => if b then "true" else "false"
  | .null => "null"

/-- Rendering of an optional property in a template literal: an absent
property prints as undefined. -/
def jsToStringOpt : Option JsValue → String
  | some v => jsToString v
  | none => "undefined"

/-- Argument bag of a tool call.  Only the properties the four handlers ever
inspect are carried; each is an arbitrary untyped value or absent, so
malformed bags (wrongly typed fields) are representable. -/
structure ArgBag where
  id : Option JsValue := none
  path : Option JsValue := none
  title : Option JsValue := none
  content : Option JsValue := none
  editor : Option JsValue := none
  isPublished : Option JsValue := none
  orderBy : Option JsValue := none
  limit : Option JsValue := none
deriving DecidableEq, Repr

/-- Does the optional property hold a number (typeof x === number)? -/
def propIsNum : Option JsValue → Bool
  | some (.num _) => true
  | _ => false

/-- Does the optional property hold a string (typeof x === string)? -/
def propIsStr : Option JsValue → Bool
  | some (.str _) => true
  | _ => false

/-- Type guard isListPagesArgs (identical in every revision): it only checks
that the argument is a non-null object, which every bag is. -/
def isListPagesArgs (_ : ArgBag) : Bool := true

/-- Type guard isGetPageArgs (identical in every revision): a numeric id or a
string path must be present. -/
def isGetPageArgs (a : ArgBag) : Bool :=
  propIsNum a.id || propIsStr a.path

/-- Type guard isCreatePageArgs (identical in every revision): path, title and
content must all be present as strings. -/
def isCreatePageArgs (a : ArgBag) : Bool :=
  propIsStr a.path && propIsStr a.title && propIsStr a.content

/-- Type guard isUpdatePageArgs (identical in every revision): a numeric id or
a string path must be present. -/
def isUpdatePageArgs (a : ArgBag) : Bool :=
  propIsNum a.id || propIsStr a.path

/-- One text content block of a tool result. -/
structure TextContent where
  text : String
deriving DecidableEq, Repr

/-- Result of a tool call as returned to the MCP host. -/
structure ToolCallResult where
  content : List TextContent
  isError : Bool
deriving DecidableEq, Repr

/-- Error-flagged single-text result. -/
def errResult (s : String) : ToolCallResult :=
  { content := [⟨s⟩], isError := true }

/-- Success single-text result. -/
def okResult (s : String) : ToolCallResult :=
  { content := [⟨s⟩], isError := false }

/-- Text of the first content block (every handler produces exactly one). -/
def firstText (r : ToolCallResult) : String :=
  match r.content with
  | t :: _ => t.text
  | [] => ""

/-- Page record as unwrapped from the single and singleByPath queries.  Only
the fields the handlers read (id, title, content) are carried. -/
structure Page where
  id : Int
  title : String
  content : String
deriving DecidableEq, Repr

/-- Page record as unwrapped from the list query.  updatedAt is the raw
timestamp string; none models a JavaScript-falsy value (null, undefined or
the empty string), since the only use of the field is a truthiness test
followed by date formatting. -/
structure ListedPage where
  id : Int
  path : String
  title : String
  updatedAt : Option String := none
deriving DecidableEq, Repr

/-- Page sub-object of a create or update mutation response. -/
structure MutationPage where
  id : Int
  path : String
  title : String
deriving DecidableEq, Repr

/-- responseResult envelope of a mutation response.  none for message models
a JavaScript-falsy message (null, undefined or the empty string is also
representable as some).  errorCode and slug are never read outside debug
logging and are omitted. -/
structure ResponseResult where
  succeeded : Bool
  message : Option String := none
deriving DecidableEq, Repr

/-- Body of a create or update mutation response (pages.create or
pages.update); each sub-object may be missing or null. -/
structure MutationResult where
  responseResult : Option ResponseResult := none
  page : Option MutationPage := none
deriving DecidableEq, Repr

/-- Variable bag of the create mutation as assembled by the handlers. -/
structure CreateParams where
  path : String
  title : String
  content : String
  editor : JsValue
  isPublished : JsValue
  description : String
deriving DecidableEq, Repr

/-- Variable bag of the update mutation as assembled by the handlers;
description is always passed as undefined and is omitted. -/
structure UpdateParams where
  id : JsValue
  title : Option JsValue := none
  content : Option JsValue := none
  editor : Option JsValue := none
  isPublished : Option JsValue := none
deriving DecidableEq, Repr

/-- GraphQL transport oracle.  Each field maps one request shape to either a
successful unwrapped response (Except.ok) or a thrown error with its message
(Except.error, covering transport failures and response shapes whose
defensive unwrapping would throw).  fmtDate models the locale-dependent
toLocaleString rendering of a timestamp. -/
structure Env where
  list : JsValue → JsValue → Except String (List ListedPage)
  single : JsValue → Except String (Option Page)
  singleByPath : String → Except String (Option Page)
  create : CreateParams → Except String (Option MutationResult)
  update : UpdateParams → Except String (Option MutationResult)
  fmtDate : String → String

/-- Substring test, modelling the JavaScript String.prototype.includes. -/
def strContains (s sub : String) : Bool :=
  decide (sub.data <:+: s.data)

/-- Does the path start with a slash?  Models startsWith used on a
one-character prefix. -/
def startsWithSlash (path : String) : Bool :=
  path.data.head? = some '/'

/-- Path normalization of revisions A, B and C (normalizePath): strip exactly
one leading slash if present, do not alter anything else. -/
def normalizePath (path : String) : String :=
  if startsWithSlash path then String.mk path.data.tail else path

/-- Language-prefix test of revision A: the regular expression of two ASCII
letters (either case) followed by a slash, anchored at the start. -/
def hasLangPrefix (s : String) : Bool :=
  match s.data with
  | c1 :: c2 :: '/' :: _ => c1.isAlpha && c2.isAlpha
  | _ => false

/-- Path-variation generator of revision A (generatePathVariations): builds
the ordered list of candidate paths, starting the list with ja-prefixed
variants when the normalized path carries no language prefix, then the
normalized path itself, the original path with a restored slash, and
en-prefixed variants, with duplicate suppression via includes. -/
def generatePathVariations (path : String) : List String :=
  let originalPath := path
  let normalizedPath := normalizePath originalPath
  let langPrefix := hasLangPrefix normalizedPath
  let v1 : List String :=
    if !langPrefix then
      ["ja/" ++ normalizedPath, "/ja/" ++ normalizedPath]
    else
      [normalizedPath]
  let v2 := if !(v1.contains normalizedPath) then v1 ++ [normalizedPath] else v1
  let v3 :=
    if !(startsWithSlash originalPath) && !(v2.contains ("/" ++ originalPath)) then
      v2 ++ ["/" ++ originalPath]
    else v2
  let v4 :=
    if !langPrefix then
      v3 ++ ["en/" ++ normalizedPath, "/en/" ++ normalizedPath]
    else v3
  v4

/-- Sequential attempt loop shared by the path-retry handlers of revision A:
try each candidate in order, swallow per-attempt failures, stop at the first
success.  Returns the first successful value and the list of candidates
actually attempted. -/
def tryPaths {α : Type} (attempt : String → Option α) : List String → Option α × List String
  | [] => (none, [])
  | p :: rest =>
    match attempt p with
    | some a => (some a, [p])
    | none =>
      let r := tryPaths attempt rest
      (r.1, p :: r.2)

/-- Trace of the network calls an update handler run issues: the paths looked
up during resolution and the mutation variable bags issued. -/
structure UpdateTrace where
  lookups : List String
  mutations : List UpdateParams
deriving DecidableEq, Repr

/-- Known upstream defect signature the update handler special-cases. -/
def quirkSignature : String :=
  "Cannot read properties of undefined (reading \x27map\x27)"

/-- Quirk test of the update handler of revisions A and C: the message must be
truthy and contain the signature as a substring (includes). -/
def messageHasQuirk (msg : Option String) : Bool :=
  match msg with
  | some m => (m != "") && strContains m quirkSignature
  | none => false

/-- Message with the falsy fallback (message || Unknown error). -/
def msgOrUnknown (msg : Option String) : String :=
  match msg with
  | some m => if m = "" then "Unknown error" else m
  | none => "Unknown error"

/-- Interpretation of the update mutation response in revisions A and C (the
code is identical in both): success reports the page, a failure whose message
carries the known quirk signature is reclassified as success, any other
failure is surfaced as an error, and a missing envelope falls through to a
success with an unexpected-format note. -/
def interpretUpdateResponse (resp : Option MutationResult) : ToolCallResult :=
  match resp with
  | some result =>
    match result.responseResult with
    | some rr =>
      if rr.succeeded then
        match result.page with
        | some pg =>
          okResult ("Page updated successfully:\nTitle: " ++ pg.title ++
            "\nID: " ++ toString pg.id ++ "\nPath: " ++ pg.path)
        | none =>
          okResult "Page updated successfully, but no page details were returned."
      else if messageHasQuirk rr.message then
        okResult ("Page was likely updated successfully despite error: " ++
          msgOrUnknown rr.message ++ "\nThis is a known issue with the Wiki.js API.")
      else
        errResult ("Failed to update page: " ++ msgOrUnknown rr.message)
    | none =>
      okResult "Page was updated successfully, but the response format was unexpected."
  | none =>
    okResult "Page was updated successfully, but the response format was unexpected."

/-- One formatted line of the list handler (identical in every revision):
title, id and path, plus a locale-formatted timestamp when updatedAt is
truthy. -/
def formatPageEntry (fmtDate : String → String) (p : ListedPage) : String :=
  "- " ++ p.title ++ " (ID: " ++ toString p.id ++ ", Path: " ++ p.path ++ ")" ++
    (match p.updatedAt with
     | some t => "\n  Last Updated: " ++ fmtDate t
     | none => "")

/-- Result shaping of the list handler (identical in every revision): entries
joined by blank lines, or the literal text No pages found when the listing is
empty; never error-flagged. -/
def listPagesResult (fmtDate : String → String) (pages : List ListedPage) : ToolCallResult :=
  let pageList := String.intercalate "\n\n" (pages.map (formatPageEntry fmtDate))
  { content := [⟨if pages.length > 0 then pageList else "No pages found"⟩],
    isError := false }

namespace Rev0

/-- Path normalization of the earliest revision (part_000): ENSURE a leading
slash, prepending one when absent (the opposite of the later revisions). -/
def normalizePath (path : String) : String :=
  if startsWithSlash path then path else "/" ++ path

/-- Get handler of the earliest revision: one id-based or one path-based
lookup, no retries.  A thrown lookup (or a response whose unchecked
unwrapping throws) is caught and reported as an error result; a null record
becomes a not-found error result. -/
def getPage (env : Env) (a : ArgBag) : ToolCallResult :=
  let fetched : Except String (Option Page) :=
    match argTruthy a.id with
    | some idv => env.single idv
    | none =>
      match argTruthy a.path with
      | some (.str s) => env.singleByPath (normalizePath s)
      | some _ => .error "TypeError"
      | none => .error "Either id or path must be provided"
  match fetched with
  | .error e => errResult ("Error fetching page: " ++ e)
  | .ok none =>
    errResult ("Page not found for " ++
      (match argTruthy a.id with
       | some idv => "ID: " ++ jsToString idv
       | none => "path: " ++ jsToStringOpt a.path))
  | .ok (some page) =>
    okResult ("# " ++ page.title ++ "\n\n" ++ page.content)

/-- Create handler of the earliest revision: one mutation on the normalized
path (path, title and content are strings here because the type guard has
already passed), defaulting editor and isPublished, description sent empty. -/
def createPage (env : Env) (p t c : String) (editor isPublished : Option JsValue) :
    ToolCallResult :=
  let params : CreateParams :=
    { path := normalizePath p
      title := t
      content := c
      editor := jsOr editor (.str "markdown")
      isPublished := (match isPublished with | some v => v | none => .bool true)
      description := "" }
  match env.create params with
  | .error e => errResult ("Error creating page: " ++ e)
  | .ok (some result) =>
    match result.responseResult with
    | some rr =>
      if !rr.succeeded then
        errResult ("Failed to create page: " ++ msgOrUnknown rr.message)
      else
        match result.page with
        | some pg =>
          okResult ("Page created successfully:\nTitle: " ++ pg.title ++
            "\nID: " ++ toString pg.id ++ "\nPath: " ++ pg.path)
        | none =>
          okResult "Page may have been created, but the response format was unexpected."
    | none =>
      match result.page with
      | some pg =>
        okResult ("Page created successfully:\nTitle: " ++ pg.title ++
          "\nID: " ++ toString pg.id ++ "\nPath: " ++ pg.path)
      | none =>
        okResult "Page may have been created, but the response format was unexpected."
  | .ok none =>
    okResult "Page may have been created, but the response format was unexpected."

/-- Interpretation of the update mutation response in the earliest revision:
like the later one but WITHOUT the quirk-masking branch, and a success
without a page object falls through to the unexpected-format success. -/
def interpretUpdateResponseNoQuirk (resp : Option MutationResult) : ToolCallResult :=
  match resp with
  | some result =>
    match result.responseResult with
    | some rr =>
      if !rr.succeeded then
        errResult ("Failed to update page: " ++ msgOrUnknown rr.message)
      else
        match result.page with
        | some pg =>
          okResult ("Page updated successfully:\nTitle: " ++ pg.title ++
            "\nID: " ++ toString pg.id ++ "\nPath: " ++ pg.path)
        | none =>
          okResult "Page was updated successfully, but the response format was unexpected."
    | none =>
      match result.page with
      | some pg =>
        okResult ("Page updated successfully:\nTitle: " ++ pg.title ++
          "\nID: " ++ toString pg.id ++ "\nPath: " ++ pg.path)
      | none =>
        okResult "Page was updated successfully, but the response format was unexpected."
  | none =>
    okResult "Page was updated successfully, but the response format was unexpected."

/-- Update handler of the earliest revision, instrumented with the trace of
issued calls.  With a falsy id and a truthy path, the path is first resolved
to an id by one lookup; a not-found resolution returns immediately without a
mutation; a resolved falsy id (0) trips the could-not-determine-page-ID throw,
caught into an error result, again without a mutation; otherwise exactly one
update mutation is issued and its response interpreted. -/
def updatePage (env : Env) (a : ArgBag) : ToolCallResult × UpdateTrace :=
  let doMutation : JsValue → List String → ToolCallResult × UpdateTrace := fun idv lks =>
    let params : UpdateParams :=
      { id := idv, title := a.title, content := a.content,
        editor := a.editor, isPublished := a.isPublished }
    match env.update params with
    | .error e => (errResult ("Error updating page: " ++ e), ⟨lks, [params]⟩)
    | .ok resp => (interpretUpdateResponseNoQuirk resp, ⟨lks, [params]⟩)
  match argTruthy a.id with
  | some idv => doMutation idv []
  | none =>
    match argTruthy a.path with
    | some (.str s) =>
      let np := normalizePath s
      match env.singleByPath np with
      | .error e => (errResult ("Error updating page: " ++ e), ⟨[np], []⟩)
      | .ok none => (errResult ("Page not found for path: " ++ np), ⟨[np], []⟩)
      | .ok (some page) =>
        if page.id = 0 then
          (errResult "Error updating page: Could not determine page ID", ⟨[np], []⟩)
        else
          doMutation (.num page.id) [np]
    | some _ => (errResult "Error updating page: TypeError", ⟨[], []⟩)
    | none =>
      (errResult "Error updating page: Could not determine page ID", ⟨[], []⟩)

/-- List handler of the earliest revision.  It has no inner catch, so a
thrown listing propagates to the dispatcher boundary (Except.error). -/
def listPages (env : Env) (a : ArgBag) : Except String ToolCallResult :=
  let orderBy := jsOr a.orderBy (.str "TITLE")
  let limit := jsOr a.limit (.num 10)
  match env.list orderBy limit with
  | .error e => .error e
  | .ok pages => .ok (listPagesResult env.fmtDate pages)

/-- Dispatcher body of the earliest revision, before the boundary catch-all:
missing arguments and failed type guards throw (Except.error), unknown tool
names produce an error-flagged result.  The create branch extracts the three
string fields by the same shape test the guard performs. -/
def callToolInner (env : Env) (name : String) (args : Option ArgBag) :
    Except String ToolCallResult :=
  match args with
  | none => .error "No arguments provided"
  | some a =>
    if name = "wiki_list_pages" then
      if isListPagesArgs a then listPages env a
      else .error "Invalid arguments for wiki_list_pages"
    else if name = "wiki_get_page" then
      if isGetPageArgs a then .ok (getPage env a)
      else .error "Invalid arguments for wiki_get_page"
    else if name = "wiki_create_page" then
      match a.path, a.title, a.content with
      | some (.str p), some (.str t), some (.str c) =>
        .ok (createPage env p t c a.editor a.isPublished)
      | _, _, _ => .error "Invalid arguments for wiki_create_page"
    else if name = "wiki_update_page" then
      if isUpdatePageArgs a then .ok (updatePage env a).1
      else .error "Invalid arguments for wiki_update_page"
    else
      .ok { content := [⟨"Unknown tool: " ++ name⟩], isError := true }

/-- CallTool request handler of the earliest revision: the dispatcher body
wrapped in the boundary catch-all, which converts any escaped exception into
an error-flagged text result, so the handler always resolves. -/
def callTool (env : Env) (name : String) (args : Option ArgBag) : ToolCallResult :=
  match callToolInner env name args with
  | .ok r => r
  | .error e => { content := [⟨"Error: " ++ e⟩], isError := true }

end Rev0

namespace RevA

/-- Trace of the network calls a get handler run issues. -/
structure GetTrace where
  idLookups : List JsValue
  pathLookups : List String
deriving DecidableEq, Repr

/-- One attempt of the revision-A path-lookup loop: issue the lookup, swallow
a thrown attempt, succeed only when the response unwraps to a truthy page. -/
def attemptGetByPath (env : Env) (q : String) : Option Page :=
  match env.singleByPath q with
  | .ok (some pg) => some pg
  | _ => none

/-- Get handler of revision A, instrumented with the trace of issued calls.
A truthy id gives one id lookup with no retry; otherwise a truthy string path
is expanded by generatePathVariations and the variants are attempted in order
until one yields a page. -/
def getPage (env : Env) (a : ArgBag) : ToolCallResult × GetTrace :=
  match argTruthy a.id with
  | some idv =>
    match env.single idv with
    | .error e => (errResult ("Error fetching page: " ++ e), ⟨[idv], []⟩)
    | .ok (some page) =>
      (okResult ("# " ++ page.title ++ "\n\n" ++ page.content), ⟨[idv], []⟩)
    | .ok none =>
      (errResult ("Page not found for ID: " ++ jsToString idv), ⟨[idv], []⟩)
  | none =>
    match argTruthy a.path with
    | some (.str s) =>
      let r := tryPaths (attemptGetByPath env) (generatePathVariations s)
      match r.1 with
      | some page =>
        (okResult ("# " ++ page.title ++ "\n\n" ++ page.content), ⟨[], r.2⟩)
      | none =>
        (errResult ("Page not found for path: " ++ s), ⟨[], r.2⟩)
    | some _ => (errResult "Error fetching page: TypeError", ⟨[], []⟩)
    | none =>
      (errResult "Error fetching page: Either id or path must be provided", ⟨[], []⟩)

/-- Mutation variable bag the revision-A create handler shares across its
attempts; the path field is overridden per attempt. -/
def createBase (t c : String) (editor isPublished : Option JsValue) : CreateParams :=
  { path := ""
    title := t
    content := c
    editor := jsOr editor (.str "markdown")
    isPublished := (match isPublished with | some v => v | none => .bool true)
    description := "" }

/-- One attempt of the revision-A create loop: issue the mutation on the given
path, swallow a thrown attempt, succeed only when responseResult is present
with succeeded true and a page object is returned. -/
def attemptCreate (env : Env) (base : CreateParams) (q : String) : Option MutationPage :=
  match env.create { base with path := q } with
  | .ok (some result) =>
    match result.responseResult, result.page with
    | some rr, some pg => if rr.succeeded then some pg else none
    | _, _ => none
  | _ => none

/-- Create handler of revision A, instrumented with the list of paths on which
a mutation was attempted: the variants of generatePathVariations are tried in
order until one succeeds; on exhaustion an error result is returned whose
message always claims failure after multiple attempts. -/
def createPage (env : Env) (p t c : String) (editor isPublished : Option JsValue) :
    ToolCallResult × List String :=
  let base := createBase t c editor isPublished
  let r := tryPaths (attemptCreate env base) (generatePathVariations p)
  match r.1 with
  | some pg =>
    (okResult ("Page created successfully:\nTitle: " ++ pg.title ++
      "\nID: " ++ toString pg.id ++ "\nPath: " ++ pg.path), r.2)
  | none =>
    (errResult ("Failed to create page after multiple attempts. Wiki.js may require specific language prefixes in paths (e.g., \"/ja/home\"). Please check the debug information for details."), r.2)

/-- Update handler of revision A, instrumented with the trace of issued
calls.  With a falsy id and a truthy string path, resolution loops the
variants of generatePathVariations through the same per-attempt
catch-and-continue lookup as the get handler, stopping at the first found
page; an exhausted loop returns the not-found error naming the ORIGINAL path
with zero mutations; a resolved falsy id (0) trips the
could-not-determine-page-ID throw, caught into an error result, again with
zero mutations; otherwise exactly one update mutation is issued and its
response interpreted with the quirk-masking rule. -/
def updatePage (env : Env) (a : ArgBag) : ToolCallResult × UpdateTrace :=
  let doMutation : JsValue → List String → ToolCallResult × UpdateTrace := fun idv lks =>
    let params : UpdateParams :=
      { id := idv, title := a.title, content := a.content,
        editor := a.editor, isPublished := a.isPublished }
    match env.update params with
    | .error e => (errResult ("Error updating page: " ++ e), ⟨lks, [params]⟩)
    | .ok resp => (interpretUpdateResponse resp, ⟨lks, [params]⟩)
  match argTruthy a.id with
  | some idv => doMutation idv []
  | none =>
    match argTruthy a.path with
    | some (.str s) =>
      let r := tryPaths (attemptGetByPath env) (generatePathVariations s)
      match r.1 with
      | none => (errResult ("Page not found for path: " ++ s), ⟨r.2, []⟩)
      | some page =>
        if page.id = 0 then
          (errResult "Error updating page: Could not determine page ID", ⟨r.2, []⟩)
        else
          doMutation (.num page.id) r.2
    | some _ => (errResult "Error updating page: TypeError", ⟨[], []⟩)
    | none =>
      (errResult "Error updating page: Could not determine page ID", ⟨[], []⟩)

end RevA

namespace RevC

/-- One attempt of the revision-C create handler: issue the mutation, swallow
a thrown attempt; a response carrying responseResult with succeeded false
fails the attempt, otherwise the attempt succeeds exactly when a page object
is present. -/
def attemptCreate (env : Env) (params : CreateParams) : Option MutationPage :=
  match env.create params with
  | .ok (some result) =>
    if (match result.responseResult with
        | some rr => !rr.succeeded
        | none => false) then
      none
    else
      result.page
  | _ => none

/-- Exhaustion message of the revision-C create handler; it is emitted
verbatim no matter how many attempts were made. -/
def exhaustionMessage : String :=
  "Failed to create page after multiple attempts. Please check the debug information for details."

/-- Create handler of revision C, instrumented with the list of paths on which
a mutation was attempted: first the normalized path, then - only when the
original path does not start with a slash - the original path with a slash
restored, stopping at the first success; on exhaustion an error result with
the fixed multiple-attempts message. -/
def createPage (env : Env) (p t c : String) (editor isPublished : Option JsValue) :
    ToolCallResult × List String :=
  let normalizedPath := normalizePath p
  let params1 : CreateParams :=
    { path := normalizedPath
      title := t
      content := c
      editor := jsOr editor (.str "markdown")
      isPublished := (match isPublished with | some v => v | none => .bool true)
      description := "" }
  let successText : MutationPage → String := fun pg =>
    "Page created successfully:\nTitle: " ++ pg.title ++
      "\nID: " ++ toString pg.id ++ "\nPath: " ++ pg.path
  match attemptCreate env params1 with
  | some pg => (okResult (successText pg), [normalizedPath])
  | none =>
    if startsWithSlash p then
      (errResult exhaustionMessage, [normalizedPath])
    else
      let p2 := "/" ++ p
      match attemptCreate env { params1 with path := p2 } with
      | some pg => (okResult (successText pg), [normalizedPath, p2])
      | none => (errResult exhaustionMessage, [normalizedPath, p2])

end RevC

/-- Test oracle on which every request succeeds but finds nothing: listings
are empty, lookups return null, mutations return a null body. -/
def envAllMiss : Env :=
  { list := fun _ _ => .ok []
    single := fun _ => .ok none
    singleByPath := fun _ => .ok none
    create := fun _ => .ok none
    update := fun _ => .ok none
    fmtDate := fun s => s }

/-- Test oracle on which every path lookup finds a page whose id is 0. -/
def envIdZero : Env :=
  { envAllMiss with
    singleByPath := fun _ => .ok (some { id := 0, title := "T", content := "C" }) }

/-- Test oracle on which every create mutation reports a plain failure. -/
def envCreateFail : Env :=
  { envAllMiss with
    create := fun _ =>
      .ok (some { responseResult := some { succeeded := false, message := some "path already exists" },
                  page := none }) }

/-- Argument bag carrying only a string path (plus optional content fields),
as a wiki_update_page call that supplies no id produces. -/
def pathOnlyArgs (s : String) (ti co ed ip : Option JsValue) : ArgBag :=
  { path := some (.str s), title := ti, content := co, editor := ed, isPublished := ip }

/- ------------------------------------------------------------------ -/
/- Helper lemmas                                                      -/
/- ------------------------------------------------------------------ -/

/-- The value tryPaths finds is the first success along the list. -/
theorem tryPaths_fst {α : Type} (attempt : String → Option α) (l : List String) :
    (tryPaths attempt l).1 = l.findSome? attempt := by
  induction l with
  | nil => rfl
  | cons p rest ih =>
    simp only [tryPaths, List.findSome?]
    cases h : attempt p <;> simp [h, ih]

/-- The candidates tryPaths attempts are exactly the prefix of the list up to
and including the first success (the whole list when no candidate
succeeds). -/
theorem tryPaths_snd {α : Type} (attempt : String → Option α) (l : List String) :
    (tryPaths attempt l).2 = l.take (l.findIdx (fun q => (attempt q).isSome) + 1) := by
  induction l with
  | nil => rfl
  | cons p rest ih =>
    simp only [tryPaths, List.findIdx_cons]
    cases h : attempt p <;> simp [h, ih]

/-- Prepending a nonempty string changes a string. -/
theorem append_left_ne (pre n : String) (h : pre.data ≠ []) : pre ++ n ≠ n := by
  intro he
  have hl := congrArg (fun s => s.data.length) he
  simp at hl
  exact h (List.eq_nil_of_length_eq_zero hl)

/-- When the normalized path carries a language prefix, the variation list of
revision A starts with the normalized path itself. -/
theorem genVars_head_withLang (p : String) (h : hasLangPrefix (normalizePath p) = true) :
    (generatePathVariations p).head? = some (normalizePath p) := by
  simp only [generatePathVariations, h]
  simp
  split <;> simp

/-- When the normalized path carries no language prefix, the variation list of
revision A starts with the ja-prefixed variant and holds the normalized path
only in third position. -/
theorem genVars_head_withoutLang (p : String) (h : hasLangPrefix (normalizePath p) = false) :
    (generatePathVariations p).head? = some ("ja/" ++ normalizePath p)
    ∧ (generatePathVariations p)[2]? = some (normalizePath p) := by
  have h1 : ¬ (normalizePath p = "ja/" ++ normalizePath p) :=
    fun he => append_left_ne "ja/" (normalizePath p) (by decide) he.symm
  have h2 : ¬ (normalizePath p = "/ja/" ++ normalizePath p) :=
    fun he => append_left_ne "/ja/" (normalizePath p) (by decide) he.symm
  simp only [generatePathVariations, h]
  simp [h1, h2]
  split <;> simp

/- ------------------------------------------------------------------ -/
/- Claim theorems                                                     -/
/- ------------------------------------------------------------------ -/

/-- C10 (confirmed): for a wiki_get_page call whose arguments carry id equal
to 0 and no path, argument validation passes (the id is present and numeric),
yet the revision-A handler issues zero id-based lookups and zero path-based
lookups and returns an error result with isError true, because the id branch
tests the value for truthiness rather than presence. -/
theorem getPage_id_zero_validation_gap (env : Env) :
    isGetPageArgs { id := some (.num 0) } = true
    ∧ (RevA.getPage env { id := some (.num 0) }).2.idLookups = []
    ∧ (RevA.getPage env { id := some (.num 0) }).2.pathLookups = []
    ∧ (RevA.getPage env { id := some (.num 0) }).1.isError = true :=
  ⟨rfl, rfl, rfl, rfl⟩

/-- C7 counterexample: a wiki_get_page call whose arguments include the
numeric id 0 does NOT issue exactly one id-based lookup - the revision-A
handler issues none at all, refuting the claim as stated for this input. -/
theorem getPage_id_zero_not_single_lookup :
    isGetPageArgs { id := some (.num 0) } = true
    ∧ (RevA.getPage envAllMiss { id := some (.num 0) }).2.idLookups.length ≠ 1 :=
  ⟨rfl, by decide⟩

/-- C7 (amended): for every wiki_get_page call whose arguments include a
TRUTHY id (for a numeric id: a nonzero one), the revision-A handler issues
exactly one id-based lookup and zero path-based lookups, regardless of
whether the lookup finds a page, throws, or comes back empty. -/
theorem getPage_truthy_id_single_lookup (env : Env) (v : JsValue) (pth : Option JsValue)
    (hv : jsTruthy v = true) :
    (RevA.getPage env { id := some v, path := pth }).2.idLookups = [v]
    ∧ (RevA.getPage env { id := some v, path := pth }).2.pathLookups = [] := by
  unfold RevA.getPage
  simp only [argTruthy, hv, if_true]
  cases hs : env.single v with
  | error e => simp
  | ok op => cases op <;> simp

/-- C7 witness: the amended theorem applied at the truthy id 5 against the
all-miss oracle. -/
theorem getPage_truthy_id_single_lookup_witness :
    jsTruthy (.num 5) = true
    ∧ (RevA.getPage envAllMiss { id := some (.num 5) }).2.idLookups = [JsValue.num 5] :=
  ⟨by decide, (getPage_truthy_id_single_lookup envAllMiss (.num 5) none (by decide)).1⟩

/-- C4 counterexample: the path normalization of the earliest revision
(part_000), one of the two implementations the claim cites, does not strip a
leading slash - it PREPENDS one to a slashless path, so the inputs /home and
home both resolve to the lookup key /home there, not to home as the claim
states. -/
theorem normalizePath_rev0_adds_slash :
    Rev0.normalizePath "home" = "/home"
    ∧ Rev0.normalizePath "/home" = "/home"
    ∧ ("/home" : String) ≠ "home" :=
  ⟨rfl, rfl, by decide⟩

/-- C4 (amended): in revisions A, B and C, normalizePath strips exactly one
leading slash if present and alters nothing else, so /home and home both
normalize to the lookup key home; in the earliest revision normalizePath
instead ensures a leading slash, so /home and home both normalize to the
common key /home. -/
theorem normalizePath_amended :
    (∀ cs : List Char, normalizePath (String.mk ('/' :: cs)) = String.mk cs)
    ∧ (∀ p : String, startsWithSlash p = false → normalizePath p = p)
    ∧ normalizePath "/home" = "home"
    ∧ normalizePath "home" = "home"
    ∧ (∀ cs : List Char, Rev0.normalizePath (String.mk ('/' :: cs)) = String.mk ('/' :: cs))
    ∧ (∀ p : String, startsWithSlash p = false → Rev0.normalizePath p = "/" ++ p)
    ∧ Rev0.normalizePath "/home" = "/home"
    ∧ Rev0.normalizePath "home" = "/home" := by
  refine ⟨?_, ?_, rfl, rfl, ?_, ?_, rfl, rfl⟩
  · intro cs
    simp [normalizePath, startsWithSlash]
  · intro p hp
    simp [normalizePath, hp]
  · intro cs
    simp [Rev0.normalizePath, startsWithSlash]
  · intro p hp
    simp [Rev0.normalizePath, hp]

/-- C4 witness: the amended theorem applied at the slashless path home for
both normalization flavours. -/
theorem normalizePath_amended_witness :
    startsWithSlash "home" = false
    ∧ normalizePath "home" = "home"
    ∧ Rev0.normalizePath "home" = "/" ++ "home" :=
  ⟨by decide, normalizePath_amended.2.1 "home" (by decide),
    normalizePath_amended.2.2.2.2.2.1 "home" (by decide)⟩

/-- C1 (confirmed): when the update mutation response of revisions A and C
carries a responseResult with succeeded false, the handler result is
error-free exactly when the message matches the known upstream defect
signature (the containment test messageHasQuirk); every other failure message
yields isError true. -/
theorem updateResponse_quirk_masking (rr : ResponseResult) (mp : Option MutationPage)
    (h : rr.succeeded = false) :
    (interpretUpdateResponse (some { responseResult := some rr, page := mp })).isError
      = !(messageHasQuirk rr.message) := by
  unfold interpretUpdateResponse
  simp only [h]
  cases hq : messageHasQuirk rr.message <;> simp [hq, errResult, okResult]

/-- C1 witness: the masking theorem applied to a failed response whose message
carries the defect signature inside surrounding text; the result is reported
as success. -/
theorem updateResponse_quirk_masking_witness :
    (interpretUpdateResponse (some
      { responseResult := some
          { succeeded := false,
            message := some ("request failed: " ++ quirkSignature) },
        page := none })).isError = false := by
  have h := updateResponse_quirk_masking
    { succeeded := false, message := some ("request failed: " ++ quirkSignature) } none rfl
  rw [h]
  decide

/-- C9 (confirmed): the success-masking test of the update handler of
revisions A and C is substring containment, not exact match - a failed update
whose message contains the defect signature anywhere, for any surrounding
text, is reported as success with isError false. -/
theorem updateResponse_quirk_substring (pre post : String) (mp : Option MutationPage) :
    (interpretUpdateResponse (some
      { responseResult := some
          { succeeded := false,
            message := some (pre ++ quirkSignature ++ post) },
        page := mp })).isError = false := by
  have hne : (pre ++ quirkSignature ++ post) ≠ "" := by
    intro he
    have hd := congrArg String.data he
    simp at hd
    exact absurd hd.2.1 (by decide)
  have hq : messageHasQuirk (some (pre ++ quirkSignature ++ post)) = true := by
    simp [messageHasQuirk, strContains, hne]
  unfold interpretUpdateResponse
  simp [hq, okResult]

/-- C3 counterexample: for the slashless path home in revision A, the FIRST
path-based GraphQL call of the get handler uses ja/home rather than the
normalized path home (which is attempted only third), refuting the claim that
the first call uses the normalized form of the user-supplied path. -/
theorem pathVariants_first_call_not_normalized :
    normalizePath "home" = "home"
    ∧ (RevA.getPage envAllMiss { path := some (.str "home") }).2.pathLookups.head?
        = some "ja/home"
    ∧ ("ja/home" : String) ≠ "home"
    ∧ generatePathVariations "home"
        = ["ja/home", "/ja/home", "home", "/home", "en/home", "/en/home"] :=
  ⟨rfl, by decide, by decide, by decide⟩

/-- C3 (amended): in revision A the path-based lookup loop of wiki_get_page
and the creation loop of wiki_create_page try the variants of
generatePathVariations in order, stopping at the first success (the attempted
prefix is exactly the list up to and including the first successful variant);
however the normalized path is the FIRST variant only when it already carries
a two-letter language prefix - otherwise the ja-prefixed variant is attempted
first and the normalized path only third. -/
theorem pathVariants_order (env : Env) (p t c : String) (ed ip : Option JsValue)
    (hp : p ≠ "") :
    ((RevA.getPage env { path := some (.str p) }).2.pathLookups
        = (generatePathVariations p).take
            ((generatePathVariations p).findIdx
              (fun q => (RevA.attemptGetByPath env q).isSome) + 1))
    ∧ ((RevA.createPage env p t c ed ip).2
        = (generatePathVariations p).take
            ((generatePathVariations p).findIdx
              (fun q => (RevA.attemptCreate env (RevA.createBase t c ed ip) q).isSome) + 1))
    ∧ (hasLangPrefix (normalizePath p) = true →
        (generatePathVariations p).head? = some (normalizePath p))
    ∧ (hasLangPrefix (normalizePath p) = false →
        (generatePathVariations p).head? = some ("ja/" ++ normalizePath p)
        ∧ (generatePathVariations p)[2]? = some (normalizePath p)) := by
  refine ⟨?_, ?_, genVars_head_withLang p, genVars_head_withoutLang p⟩
  · have hb : jsTruthy (.str p) = true := by simp [jsTruthy, hp]
    unfold RevA.getPage
    simp only [argTruthy, hb, if_true]
    rw [← tryPaths_snd (RevA.attemptGetByPath env) (generatePathVariations p)]
    cases hr : (tryPaths (RevA.attemptGetByPath env) (generatePathVariations p)).1 <;>
      simp [hr]
  · unfold RevA.createPage
    rw [← tryPaths_snd (RevA.attemptCreate env (RevA.createBase t c ed ip))
      (generatePathVariations p)]
    cases hr : (tryPaths (RevA.attemptCreate env (RevA.createBase t c ed ip))
        (generatePathVariations p)).1 <;>
      simp [hr]

/-- C3 witness: the amended theorem applied at the language-prefixed path
against the all-miss oracle: the whole variation list is attempted, starting
with the normalized path. -/
theorem pathVariants_order_witness :
    ("ja/intro" : String) ≠ ""
    ∧ (RevA.getPage envAllMiss { path := some (.str "ja/intro") }).2.pathLookups
        = (generatePathVariations "ja/intro").take
            ((generatePathVariations "ja/intro").findIdx
              (fun q => (RevA.attemptGetByPath envAllMiss q).isSome) + 1)
    ∧ (generatePathVariations "ja/intro").head? = some (normalizePath "ja/intro") :=
  ⟨by decide,
   (pathVariants_order envAllMiss "ja/intro" "t" "c" none none (by decide)).1,
   (pathVariants_order envAllMiss "ja/intro" "t" "c" none none (by decide)).2.2.1 (by decide)⟩

/-- C8 (confirmed): the list handler (identical in every revision) yields the
exact text No pages found with isError false on an empty listing; on a
non-empty listing it yields one entry per page joined by blank lines, each
entry containing the title, the numeric id and the path, and - when updatedAt
is present - the locale-formatted last-updated timestamp. -/
theorem listPages_format (fmtDate : String → String) (pages : List ListedPage) :
    (listPagesResult fmtDate []).content = [⟨"No pages found"⟩]
    ∧ (listPagesResult fmtDate pages).isError = false
    ∧ (pages ≠ [] →
        (listPagesResult fmtDate pages).content
          = [⟨String.intercalate "\n\n" (pages.map (formatPageEntry fmtDate))⟩])
    ∧ (∀ q ∈ pages,
        q.title.data <:+: (formatPageEntry fmtDate q).data
        ∧ (toString q.id).data <:+: (formatPageEntry fmtDate q).data
        ∧ q.path.data <:+: (formatPageEntry fmtDate q).data
        ∧ (∀ u, q.updatedAt = some u →
            (fmtDate u).data <:+: (formatPageEntry fmtDate q).data)) := by
  refine ⟨rfl, rfl, ?_, ?_⟩
  · intro hne
    cases pages with
    | nil => exact absurd rfl hne
    | cons q qs => simp [listPagesResult]
  · intro q _
    obtain ⟨qid, qpath, qtitle, qupd⟩ := q
    cases qupd with
    | none =>
      refine ⟨⟨"- ".data, (" (ID: " ++ toString qid ++ ", Path: " ++ qpath ++ ")").data, ?_⟩,
              ⟨("- " ++ qtitle ++ " (ID: ").data, (", Path: " ++ qpath ++ ")").data, ?_⟩,
              ⟨("- " ++ qtitle ++ " (ID: " ++ toString qid ++ ", Path: ").data, (")").data, ?_⟩,
              fun u hu => nomatch hu⟩ <;>
        simp [formatPageEntry]
    | some w =>
      refine ⟨⟨"- ".data,
                (" (ID: " ++ toString qid ++ ", Path: " ++ qpath ++ ")" ++
                  "\n  Last Updated: " ++ fmtDate w).data, ?_⟩,
              ⟨("- " ++ qtitle ++ " (ID: ").data,
                (", Path: " ++ qpath ++ ")" ++ "\n  Last Updated: " ++ fmtDate w).data, ?_⟩,
              ⟨("- " ++ qtitle ++ " (ID: " ++ toString qid ++ ", Path: ").data,
                (")" ++ "\n  Last Updated: " ++ fmtDate w).data, ?_⟩,
              ?_⟩
      · simp [formatPageEntry]
      · simp [formatPageEntry]
      · simp [formatPageEntry]
      · intro u hu
        cases hu
        exact ⟨("- " ++ qtitle ++ " (ID: " ++ toString qid ++ ", Path: " ++ qpath ++ ")" ++
          "\n  Last Updated: ").data, [], by simp [formatPageEntry]⟩

/-- C8 witness: the format theorem applied to a concrete one-page listing with
an identity date formatter. -/
theorem listPages_format_witness :
    ([({ id := 7, path := "docs/a", title := "Alpha", updatedAt := some "x" } : ListedPage)] ≠ [])
    ∧ (listPagesResult (fun s => s)
          [{ id := 7, path := "docs/a", title := "Alpha", updatedAt := some "x" }]).content
        = [⟨String.intercalate "\n\n"
            ([({ id := 7, path := "docs/a", title := "Alpha", updatedAt := some "x" } : ListedPage)].map
              (formatPageEntry (fun s => s)))⟩]
    ∧ ("Alpha" : String).data
        <:+: (formatPageEntry (fun s => s)
          { id := 7, path := "docs/a", title := "Alpha", updatedAt := some "x" }).data :=
  ⟨by simp,
   (listPages_format (fun s => s)
      [{ id := 7, path := "docs/a", title := "Alpha", updatedAt := some "x" }]).2.2.1 (by simp),
   ((listPages_format (fun s => s)
      [{ id := 7, path := "docs/a", title := "Alpha", updatedAt := some "x" }]).2.2.2
      { id := 7, path := "docs/a", title := "Alpha", updatedAt := some "x" } (by simp)).1⟩

/-- C5 counterexample: when the path resolution of wiki_update_page finds a
page whose id is 0, the handler issues ZERO update mutations (not exactly
one) and returns an error, because the resolved id is tested for truthiness:
resolution succeeded, yet no mutation is issued, refuting the claim as
stated.  The same edge exists in both cited revisions - the earliest one and
revision A - since both run the resolved id through the same falsiness
check. -/
theorem update_resolved_zero_id_no_mutation :
    envIdZero.singleByPath (Rev0.normalizePath "home")
      = .ok (some { id := 0, title := "T", content := "C" })
    ∧ (Rev0.updatePage envIdZero (pathOnlyArgs "home" none none none none)).2.mutations.length = 0
    ∧ (Rev0.updatePage envIdZero (pathOnlyArgs "home" none none none none)).1.isError = true
    ∧ (RevA.updatePage envIdZero (pathOnlyArgs "home" none none none none)).2.mutations.length = 0
    ∧ (RevA.updatePage envIdZero (pathOnlyArgs "home" none none none none)).1.isError = true :=
  ⟨rfl, by decide, by decide, by decide, by decide⟩

/-- C5 (amended): a wiki_update_page call that supplies only a non-empty
string path resolves the path before mutating and never issues more than one
update mutation.  Resolution differs per revision: the earliest revision
performs a single lookup on its (slash-ensuring) normalized path, while
revision A loops the variants of generatePathVariations in order through the
catch-and-continue lookup, stopping at the first found page.  In both
revisions, a resolution that finds no page returns the not-found error result
with zero mutation calls (in the earliest revision likewise on a thrown
lookup), a resolution to a page with NONZERO id issues exactly one update
mutation, and a resolution to a page with id 0 returns an error with zero
mutation calls, because the resolved id is tested for truthiness. -/
theorem update_resolve_then_mutate (env : Env) (s : String) (hs : s ≠ "")
    (ti co ed ip : Option JsValue) :
    (Rev0.updatePage env (pathOnlyArgs s ti co ed ip)).2.lookups = [Rev0.normalizePath s]
    ∧ (Rev0.updatePage env (pathOnlyArgs s ti co ed ip)).2.mutations.length ≤ 1
    ∧ (env.singleByPath (Rev0.normalizePath s) = .ok none →
        (Rev0.updatePage env (pathOnlyArgs s ti co ed ip)).1
          = errResult ("Page not found for path: " ++ Rev0.normalizePath s)
        ∧ (Rev0.updatePage env (pathOnlyArgs s ti co ed ip)).2.mutations = [])
    ∧ (∀ e, env.singleByPath (Rev0.normalizePath s) = .error e →
        (Rev0.updatePage env (pathOnlyArgs s ti co ed ip)).1.isError = true
        ∧ (Rev0.updatePage env (pathOnlyArgs s ti co ed ip)).2.mutations = [])
    ∧ (∀ pg, env.singleByPath (Rev0.normalizePath s) = .ok (some pg) → pg.id ≠ 0 →
        (Rev0.updatePage env (pathOnlyArgs s ti co ed ip)).2.mutations.length = 1)
    ∧ (∀ pg, env.singleByPath (Rev0.normalizePath s) = .ok (some pg) → pg.id = 0 →
        (Rev0.updatePage env (pathOnlyArgs s ti co ed ip)).1.isError = true
        ∧ (Rev0.updatePage env (pathOnlyArgs s ti co ed ip)).2.mutations = [])
    ∧ (RevA.updatePage env (pathOnlyArgs s ti co ed ip)).2.lookups
        = (generatePathVariations s).take
            ((generatePathVariations s).findIdx
              (fun q => (RevA.attemptGetByPath env q).isSome) + 1)
    ∧ (RevA.updatePage env (pathOnlyArgs s ti co ed ip)).2.mutations.length ≤ 1
    ∧ ((generatePathVariations s).findSome? (RevA.attemptGetByPath env) = none →
        (RevA.updatePage env (pathOnlyArgs s ti co ed ip)).1
          = errResult ("Page not found for path: " ++ s)
        ∧ (RevA.updatePage env (pathOnlyArgs s ti co ed ip)).2.mutations = [])
    ∧ (∀ pg, (generatePathVariations s).findSome? (RevA.attemptGetByPath env) = some pg →
        pg.id ≠ 0 →
        (RevA.updatePage env (pathOnlyArgs s ti co ed ip)).2.mutations.length = 1)
    ∧ (∀ pg, (generatePathVariations s).findSome? (RevA.attemptGetByPath env) = some pg →
        pg.id = 0 →
        (RevA.updatePage env (pathOnlyArgs s ti co ed ip)).1.isError = true
        ∧ (RevA.updatePage env (pathOnlyArgs s ti co ed ip)).2.mutations = []) := by
  have hb : jsTruthy (.str s) = true := by simp [jsTruthy, hs]
  refine ⟨?_, ?_, ?_, ?_, ?_, ?_, ?_, ?_, ?_, ?_, ?_⟩
  · simp only [Rev0.updatePage, pathOnlyArgs, argTruthy, hb, if_true]
    cases hl : env.singleByPath (Rev0.normalizePath s) with
    | error e => simp [hl]
    | ok op =>
      cases op with
      | none => simp [hl]
      | some pg =>
        by_cases hz : pg.id = 0
        · simp [hl, hz]
        · cases hu : env.update
            { id := .num pg.id, title := ti, content := co, editor := ed, isPublished := ip } <;>
            simp [hl, hz, hu]
  · simp only [Rev0.updatePage, pathOnlyArgs, argTruthy, hb, if_true]
    cases hl : env.singleByPath (Rev0.normalizePath s) with
    | error e => simp [hl]
    | ok op =>
      cases op with
      | none => simp [hl]
      | some pg =>
        by_cases hz : pg.id = 0
        · simp [hl, hz]
        · cases hu : env.update
            { id := .num pg.id, title := ti, content := co, editor := ed, isPublished := ip } <;>
            simp [hl, hz, hu]
  · intro hl
    simp only [Rev0.updatePage, pathOnlyArgs, argTruthy, hb, if_true]
    simp [hl]
  · intro e hl
    simp only [Rev0.updatePage, pathOnlyArgs, argTruthy, hb, if_true]
    simp [hl, errResult]
  · intro pg hl hz
    simp only [Rev0.updatePage, pathOnlyArgs, argTruthy, hb, if_true]
    cases hu : env.update
        { id := .num pg.id, title := ti, content := co, editor := ed, isPublished := ip } <;>
      simp [hl, hz, hu]
  · intro pg hl hz
    simp only [Rev0.updatePage, pathOnlyArgs, argTruthy, hb, if_true]
    simp [hl, hz, errResult]
  · simp only [RevA.updatePage, pathOnlyArgs, argTruthy, hb, if_true]
    rw [← tryPaths_snd (RevA.attemptGetByPath env) (generatePathVariations s)]
    cases hr : (tryPaths (RevA.attemptGetByPath env) (generatePathVariations s)).1 with
    | none => simp [hr]
    | some pg =>
      by_cases hz : pg.id = 0
      · simp [hr, hz]
      · cases hu : env.update
          { id := .num pg.id, title := ti, content := co, editor := ed, isPublished := ip } <;>
          simp [hr, hz, hu]
  · simp only [RevA.updatePage, pathOnlyArgs, argTruthy, hb, if_true]
    cases hr : (tryPaths (RevA.attemptGetByPath env) (generatePathVariations s)).1 with
    | none => simp [hr]
    | some pg =>
      by_cases hz : pg.id = 0
      · simp [hr, hz]
      · cases hu : env.update
          { id := .num pg.id, title := ti, content := co, editor := ed, isPublished := ip } <;>
          simp [hr, hz, hu]
  · intro hn
    have hr : (tryPaths (RevA.attemptGetByPath env) (generatePathVariations s)).1 = none :=
      (tryPaths_fst (RevA.attemptGetByPath env) (generatePathVariations s)).trans hn
    simp only [RevA.updatePage, pathOnlyArgs, argTruthy, hb, if_true]
    simp [hr]
  · intro pg hp hz
    have hr : (tryPaths (RevA.attemptGetByPath env) (generatePathVariations s)).1 = some pg :=
      (tryPaths_fst (RevA.attemptGetByPath env) (generatePathVariations s)).trans hp
    simp only [RevA.updatePage, pathOnlyArgs, argTruthy, hb, if_true]
    cases hu : env.update
        { id := .num pg.id, title := ti, content := co, editor := ed, isPublished := ip } <;>
      simp [hr, hz, hu]
  · intro pg hp hz
    have hr : (tryPaths (RevA.attemptGetByPath env) (generatePathVariations s)).1 = some pg :=
      (tryPaths_fst (RevA.attemptGetByPath env) (generatePathVariations s)).trans hp
    simp only [RevA.updatePage, pathOnlyArgs, argTruthy, hb, if_true]
    simp [hr, hz, errResult]

/-- C5 witness: the amended theorem applied against the all-miss oracle: in
the earliest revision and in revision A alike, the not-found resolution
produces the not-found error and zero mutations. -/
theorem update_resolve_then_mutate_witness :
    ("home" : String) ≠ ""
    ∧ (Rev0.updatePage envAllMiss (pathOnlyArgs "home" none none none none)).1
        = errResult ("Page not found for path: " ++ Rev0.normalizePath "home")
    ∧ (Rev0.updatePage envAllMiss (pathOnlyArgs "home" none none none none)).2.mutations = []
    ∧ (RevA.updatePage envAllMiss (pathOnlyArgs "home" none none none none)).1
        = errResult ("Page not found for path: " ++ "home")
    ∧ (RevA.updatePage envAllMiss (pathOnlyArgs "home" none none none none)).2.mutations = [] :=
  ⟨by decide,
   ((update_resolve_then_mutate envAllMiss "home" (by decide) none none none none).2.2.1 rfl).1,
   ((update_resolve_then_mutate envAllMiss "home" (by decide) none none none none).2.2.1 rfl).2,
   ((update_resolve_then_mutate envAllMiss "home" (by decide) none none none none).2.2.2.2.2.2.2.2.1
     (by decide)).1,
   ((update_resolve_then_mutate envAllMiss "home" (by decide) none none none none).2.2.2.2.2.2.2.2.1
     (by decide)).2⟩

/-- C6 counterexample: the revision-C create handler given the slashed path
/home attempts exactly ONE variant, yet its exhaustion message still claims
the creation failed after multiple attempts, refuting the claim that the
message makes that claim only when more than one variant was tried. -/
theorem create_single_attempt_claims_multiple :
    (RevC.createPage envCreateFail "/home" "T" "C" none none).2.length = 1
    ∧ (RevC.createPage envCreateFail "/home" "T" "C" none none).1.isError = true
    ∧ strContains (firstText (RevC.createPage envCreateFail "/home" "T" "C" none none).1)
        "after multiple attempts" = true :=
  ⟨by decide, by decide, by decide⟩

/-- C6 (amended): whenever the revision-C create handler exhausts its
attempts (returns an error result), the message always claims failure after
multiple attempts, regardless of the number of variants actually tried; a
path that already starts with a slash gets exactly one attempt, and no call
ever gets more than two. -/
theorem create_exhaustion_always_multiple (env : Env) (p t c : String) (ed ip : Option JsValue) :
    ((RevC.createPage env p t c ed ip).1.isError = true →
      strContains (firstText (RevC.createPage env p t c ed ip).1) "after multiple attempts" = true
      ∧ 1 ≤ (RevC.createPage env p t c ed ip).2.length)
    ∧ (startsWithSlash p = true → (RevC.createPage env p t c ed ip).2.length ≤ 1)
    ∧ (RevC.createPage env p t c ed ip).2.length ≤ 2 := by
  have hmsg : strContains RevC.exhaustionMessage "after multiple attempts" = true := by decide
  simp only [RevC.createPage]
  set ipv := (match ip with | some v => v | none => JsValue.bool true) with hip
  cases h1 : RevC.attemptCreate env
      { path := normalizePath p, title := t, content := c,
        editor := jsOr ed (.str "markdown"),
        isPublished := ipv, description := "" } with
  | some pg =>
    refine ⟨?_, ?_, ?_⟩ <;> simp [h1, okResult]
  | none =>
    by_cases hsl : startsWithSlash p = true
    · refine ⟨?_, ?_, ?_⟩ <;>
        simp [h1, hsl, firstText, errResult, hmsg]
    · cases h2 : RevC.attemptCreate env
          { path := "/" ++ p, title := t, content := c,
            editor := jsOr ed (.str "markdown"),
            isPublished := ipv, description := "" } with
      | some pg =>
        refine ⟨?_, ?_, ?_⟩ <;>
          simp [h1, hsl, h2, okResult]
      | none =>
        refine ⟨?_, ?_, ?_⟩ <;>
          simp [h1, hsl, h2, firstText, errResult, hmsg]

/-- C6 witness: the amended theorem applied at the slashed path /docs against
the failing-create oracle. -/
theorem create_exhaustion_always_multiple_witness :
    (RevC.createPage envCreateFail "/docs" "T" "C" none none).1.isError = true
    ∧ strContains (firstText (RevC.createPage envCreateFail "/docs" "T" "C" none none).1)
        "after multiple attempts" = true :=
  ⟨by decide,
   ((create_exhaustion_always_multiple envCreateFail "/docs" "T" "C" none none).1 (by decide)).1⟩

/-- Every result of the quirk-free update-response interpretation carries
exactly one text block. -/
theorem interpretNoQuirk_one_block (resp : Option MutationResult) :
    (Rev0.interpretUpdateResponseNoQuirk resp).content.length = 1 := by
  unfold Rev0.interpretUpdateResponseNoQuirk
  repeat' split
  all_goals rfl

/-- Every result of the earliest-revision get handler carries exactly one
text block. -/
theorem getPage0_one_block (env : Env) (a : ArgBag) :
    (Rev0.getPage env a).content.length = 1 := by
  simp only [Rev0.getPage]
  repeat' split
  all_goals rfl

/-- Every result of the earliest-revision create handler carries exactly one
text block. -/
theorem createPage0_one_block (env : Env) (p t c : String) (ed ip : Option JsValue) :
    (Rev0.createPage env p t c ed ip).content.length = 1 := by
  simp only [Rev0.createPage]
  repeat' split
  all_goals rfl

/-- Every result of the earliest-revision update handler carries exactly one
text block. -/
theorem updatePage0_one_block (env : Env) (a : ArgBag) :
    (Rev0.updatePage env a).1.content.length = 1 := by
  simp only [Rev0.updatePage]
  repeat' split
  all_goals first
  | rfl
  | apply interpretNoQuirk_one_block

/-- Every successful outcome of the earliest-revision list handler carries
exactly one text block. -/
theorem listPages0_ok_one_block (env : Env) (a : ArgBag) (r : ToolCallResult)
    (h : Rev0.listPages env a = .ok r) : r.content.length = 1 := by
  simp only [Rev0.listPages] at h
  split at h
  · cases h
  · cases h
    rfl

/-- Every successful outcome of the earliest-revision dispatcher body carries
exactly one text block. -/
theorem callToolInner_ok_one_block (env : Env) (name : String) (args : Option ArgBag)
    (r : ToolCallResult) (h : Rev0.callToolInner env name args = .ok r) :
    r.content.length = 1 := by
  unfold Rev0.callToolInner at h
  repeat' split at h
  all_goals first
  | exact listPages0_ok_one_block env _ r h
  | (cases h; apply getPage0_one_block)
  | (cases h; apply createPage0_one_block)
  | (cases h; apply updatePage0_one_block)
  | (cases h; rfl)
  | cases h

/-- C2 (confirmed): for every tool name (unknown names included) and every
argument bag (malformed and missing ones included), the CallTool handler of
the earliest revision resolves with a result carrying at least one text
content block, and any exception the dispatcher body raises is converted by
the boundary catch-all into an error-flagged text result - the model is a
total function, so no call ever rejects. -/
theorem calltool_always_resolves (env : Env) (name : String) (args : Option ArgBag) :
    1 ≤ (Rev0.callTool env name args).content.length
    ∧ (∀ e, Rev0.callToolInner env name args = .error e →
        Rev0.callTool env name args
          = { content := [⟨"Error: " ++ e⟩], isError := true }) := by
  constructor
  · unfold Rev0.callTool
    cases h : Rev0.callToolInner env name args with
    | ok r => exact Nat.le_of_eq (callToolInner_ok_one_block env name args r h).symm
    | error e => simp
  · intro e he
    unfold Rev0.callTool
    rw [he]

/-- C2 witness: the theorem applied to a get call with an empty argument bag:
the failed type guard throws, and the boundary catch-all converts the throw
into an error-flagged single-block result. -/
theorem calltool_always_resolves_witness :
    Rev0.callToolInner envAllMiss "wiki_get_page" (some {})
      = .error "Invalid arguments for wiki_get_page"
    ∧ Rev0.callTool envAllMiss "wiki_get_page" (some {})
      = { content := [⟨"Error: " ++ "Invalid arguments for wiki_get_page"⟩], isError := true }
    ∧ 1 ≤ (Rev0.callTool envAllMiss "wiki_get_page" (some {})).content.length :=
  ⟨rfl,
   (calltool_always_resolves envAllMiss "wiki_get_page" (some {})).2
     "Invalid arguments for wiki_get_page" rfl,
   (calltool_always_resolves envAllMiss "wiki_get_page" (some {})).1⟩

end Wikimcp
